import Mathlib

/- Verification development for the analysis-extraction-and-retrieval pipeline of the
Architectural-Document-Analysis server (src/server/src/app.ts).

Modelling conventions:
- JS strings are modelled as Lean `String`; `toLowerCase` is modelled with ASCII case
  semantics (`Char.toLower`), adequate for the keyword vocabularies involved.
- `String.prototype.includes` is `containsStr`, `split` is `splitCh`, `trim` is `trimStr`
  (over the common whitespace characters space, tab, newline, carriage return).
- The two regular expressions of the source are embedded as dedicated scanners
  (`scaleScan`, `sheetScan`, `floorScan` below) implementing the leftmost-first,
  greedy-with-backtracking semantics of the JS engine for those exact patterns.
- The external Ollama gateway is abstracted by the list of model names it reports
  and a `GenOutcome` recording whether the single `generate` call of a request
  succeeds with some text or throws; timestamps (`new Date().toISOString()`) are
  passed in as a `now : String` parameter.
- The in-memory `Map` cache is an association list with JS `Map.set`/`Map.get`
  semantics. -/

namespace ADA

/-! Basic character classes -/

/-- Whitespace, as trimmed by JS `trim` and matched by the regex class `\s`
(restricted to the common characters). -/
def wsChar (c : Char) : Bool :=
  c.toNat == 32 || c.toNat == 9 || c.toNat == 10 || c.toNat == 13

/-- Decimal digit, regex `\d` and `[0-9]`. -/
def digitCh (c : Char) : Bool :=
  48 ≤ c.toNat && c.toNat ≤ 57

/-! List-of-characters primitives modelling JS string operations -/

/-- Boolean prefix test on character lists. -/
def isPrefixB : List Char → List Char → Bool
  | [], _ => true
  | _ :: _, [] => false
  | a :: as, b :: bs => a == b && isPrefixB as bs

/-- Case-insensitive prefix test: the pattern (given in lower case) is compared
against the ASCII-lowered input characters. -/
def isCiPrefixB : List Char → List Char → Bool
  | [], _ => true
  | _ :: _, [] => false
  | a :: as, b :: bs => a == b.toLower && isCiPrefixB as bs

/-- Substring containment of `needle` in a character list, JS `includes`. -/
def inclB (needle : List Char) : List Char → Bool
  | [] => isPrefixB needle []
  | c :: t => isPrefixB needle (c :: t) || inclB needle t

/-- JS `hay.includes(needle)` on strings. -/
def containsStr (hay needle : String) : Bool :=
  inclB needle.data hay.data

/-- JS `toLowerCase` (ASCII). -/
def lowerStr (s : String) : String :=
  ⟨s.data.map Char.toLower⟩

/-- JS `split` with a single-character separator: `splitCh sep "" = [[]]`,
separators at either end produce empty fields. -/
def splitCh (sep : Char) : List Char → List (List Char)
  | [] => [[]]
  | c :: cs =>
    if c == sep then [] :: splitCh sep cs
    else
      match splitCh sep cs with
      | [] => [[c]]
      | l :: ls => (c :: l) :: ls

/-- JS `trim` on character lists. -/
def trimB (l : List Char) : List Char :=
  ((l.dropWhile wsChar).reverse.dropWhile wsChar).reverse

/-- JS `trim` on strings. -/
def trimStr (s : String) : String :=
  ⟨trimB s.data⟩

/-- A string is non-blank when it has a non-whitespace character. -/
def nonBlank (s : String) : Bool :=
  s.data.any (fun c => !wsChar c)

/-! Data model (the `AnalysisResult` interface of app.ts) -/

/-- The `floors` field of `structuralElements` is a JS `number | string`. -/
inductive FloorCount where
  | num (n : Nat)
  | txt (s : String)
deriving Repr, DecidableEq

/-- JS template-literal stringification of the `floors` value. -/
def floorToString : FloorCount → String
  | .num n => toString n
  | .txt s => s

/-- The `structuralElements` object of an `AnalysisResult`. -/
structure StructuralElements where
  floors : FloorCount
  type : String
  foundation : Option String
deriving Repr, DecidableEq

/-- The `projectInfo` object of an `AnalysisResult`. -/
structure ProjectInfo where
  title : String
  fileName : String
  uploadDate : String
  scale : String
  sheetNumber : String
deriving Repr, DecidableEq

/-- The `AnalysisResult` record (app.ts lines 62-71). -/
structure AnalysisResult where
  documentType : String
  projectInfo : ProjectInfo
  drawings : List String
  generalNotes : List String
  keyFeatures : List String
  materialsList : List String
  structuralElements : StructuralElements
  extractedText : String
deriving Repr, DecidableEq

/-! The Analysis Extractor helpers (app.ts lines 376-489) -/

/-- Value returned for a line that carries a document-type label:
`line.split(':')[1]?.trim() || 'Architectural Drawing'`. -/
def labelValue (line : List Char) : String :=
  match (splitCh ':' line)[1]? with
  | none => "Architectural Drawing"
  | some v => if trimB v = [] then "Architectural Drawing" else ⟨trimB v⟩

/-- The `for`-loop of `extractDocumentType`: first lower-cased line containing
one of the two labels yields its `labelValue`. -/
def docTypeLoop : List (List Char) → Option String
  | [] => none
  | line :: rest =>
    if inclB "document type".data line || inclB "type of drawing".data line then
      some (labelValue line)
    else docTypeLoop rest

/-- `extractDocumentType` (app.ts lines 376-387). -/
def extractDocumentType (text : String) : String :=
  match docTypeLoop (splitCh '\n' (lowerStr text).data) with
  | some v => v
  | none =>
    if containsStr (lowerStr text) "floor plan" then "Floor Plan"
    else if containsStr (lowerStr text) "elevation" then "Building Elevation"
    else if containsStr (lowerStr text) "section" then "Building Section"
    else "Architectural Drawing"

/-- The `for`-loop of `extractProjectTitle`, over the original-case lines. -/
def titleLoop : List (List Char) → Option String
  | [] => none
  | line :: rest =>
    if inclB "project".data (line.map Char.toLower) ||
        inclB "title".data (line.map Char.toLower) then
      some (match (splitCh ':' line)[1]? with
        | none => "Architectural Project"
        | some v => if trimB v = [] then "Architectural Project" else ⟨trimB v⟩)
    else titleLoop rest

/-- `extractProjectTitle` (app.ts lines 389-397). -/
def extractProjectTitle (text : String) : String :=
  match titleLoop (splitCh '\n' text.data) with
  | some v => v
  | none => "Architectural Project"

/-- The character class of the scale regex capture group: `[0-9\/"\s='-]`. -/
def scaleCls (c : Char) : Bool :=
  digitCh c || c == '/' || c == '"' || wsChar c || c == '=' || c == '\'' || c == '-'

/-- The character class `[:\s]` preceding the captures of the scale and sheet
regexes. -/
def gapCls (c : Char) : Bool :=
  c == ':' || wsChar c

/-- One match attempt of `/scale[:\s]*([0-9\/"\s='-]+)/i` at the head of `l`.
After the literal, the greedy `[:\s]*` run is consumed; the capture group then
matches greedily from the first position past the run, and on failure the run
backtracks character by character, succeeding at the last whitespace of the run
(a `:` is not in the capture class), which then captures exactly that one
whitespace character. -/
def scaleAt (l : List Char) : Option (List Char) :=
  if isCiPrefixB "scale".data l then
    let rest := l.drop 5
    let g := rest.takeWhile gapCls
    let p := rest.dropWhile gapCls
    match p with
    | c :: _ =>
      if scaleCls c then some (p.takeWhile scaleCls)
      else
        match g.reverse.find? wsChar with
        | some w => some [w]
        | none => none
    | [] =>
      match g.reverse.find? wsChar with
      | some w => some [w]
      | none => none
  else none

/-- Leftmost-first scan: try a match attempt at every successive position. -/
def scanFirst (f : List Char → Option (List Char)) : List Char → Option (List Char)
  | [] => f []
  | c :: t =>
    match f (c :: t) with
    | some r => some r
    | none => scanFirst f t

/-- First match of the scale regex in the text. -/
def scaleScan (l : List Char) : Option (List Char) :=
  scanFirst scaleAt l

/-- `extractScale` (app.ts lines 399-402). -/
def extractScale (text : String) : String :=
  match scaleScan text.data with
  | some cap => ⟨trimB cap⟩
  | none => "Not specified"

/-- The character class of the sheet regex capture group, `[A-Z0-9\-\.]` under
the `i` flag. -/
def sheetCls (c : Char) : Bool :=
  digitCh c || (65 ≤ c.toNat && c.toNat ≤ 90) || (97 ≤ c.toNat && c.toNat ≤ 122) ||
    c == '-' || c == '.'

/-- One match attempt of `/sheet[:\s]*([A-Z0-9\-\.]+)/i` at the head of `l`.
No backtracking case arises: no character of `[:\s]` is in the capture class. -/
def sheetAt (l : List Char) : Option (List Char) :=
  if isCiPrefixB "sheet".data l then
    let p := (l.drop 5).dropWhile gapCls
    let cap := p.takeWhile sheetCls
    if cap = [] then none else some cap
  else none

/-- First match of the sheet regex in the text. -/
def sheetScan (l : List Char) : Option (List Char) :=
  scanFirst sheetAt l

/-- `extractSheetNumber` (app.ts lines 404-407). -/
def extractSheetNumber (text : String) : String :=
  match sheetScan text.data with
  | some cap => ⟨trimB cap⟩
  | none => "Not specified"

/-- `extractDrawings` (app.ts lines 409-423). -/
def extractDrawings (text : String) : List String :=
  let kept := (splitCh '\n' text.data).filter (fun line =>
    let low := line.map Char.toLower
    inclB "elevation".data low || inclB "plan".data low ||
      inclB "section".data low || inclB "detail".data low ||
      inclB "view".data low || inclB "drawing".data low)
  let res := kept.map (fun line => (⟨trimB line⟩ : String))
  if res.length > 0 then res else ["Architectural drawings present"]

/-- `extractNotes` (app.ts lines 425-439). -/
def extractNotes (text : String) : List String :=
  let kept := (splitCh '\n' text.data).filter (fun line =>
    let low := line.map Char.toLower
    inclB "note".data low || inclB "specification".data low ||
      inclB "requirement".data low || inclB "code".data low ||
      inclB "standard".data low)
  let res := kept.map (fun line => (⟨trimB line⟩ : String))
  if res.length > 0 then res else ["Construction notes may be present"]

/-- `extractFeatures` (app.ts lines 441-455). -/
def extractFeatures (text : String) : List String :=
  let kept := (splitCh '\n' text.data).filter (fun line =>
    let low := line.map Char.toLower
    inclB "feature".data low || inclB "element".data low ||
      inclB "room".data low || inclB "space".data low ||
      inclB "area".data low || inclB "design".data low)
  let res := kept.map (fun line => (⟨trimB line⟩ : String))
  if res.length > 0 then res else ["Architectural features identified"]

/-- The fixed material vocabulary of `extractMaterials`. -/
def commonMaterials : List String :=
  ["concrete", "steel", "wood", "brick", "stone", "glass", "metal",
   "granite", "copper", "aluminum", "vinyl", "ceramic", "tile",
   "drywall", "insulation", "roofing", "flooring", "siding"]

/-- `material.charAt(0).toUpperCase() + material.slice(1)`. -/
def capFirst (s : String) : String :=
  match s.data with
  | [] => ""
  | c :: cs => ⟨c.toUpper :: cs⟩

/-- `extractMaterials` (app.ts lines 457-472). -/
def extractMaterials (text : String) : List String :=
  let found :=
    (commonMaterials.filter (fun m => inclB m.data (lowerStr text).data)).map capFirst
  if found.length > 0 then found else ["Building materials specified"]

/-- Digit-string value, JS `parseInt` on an all-digit capture. -/
def digitsVal (ds : List Char) : Nat :=
  ds.foldl (fun a c => 10 * a + (c.toNat - 48)) 0

/-- One match attempt of `/(\d+)\s*(?:floor|story|level|storey)/i` at the head
of `l`: a maximal digit run, a maximal whitespace run (no shorter run can
succeed, as no alternative starts with a digit or whitespace), then one of the
four keywords. The capture is the digit run. -/
def floorAt (l : List Char) : Option (List Char) :=
  match l with
  | [] => none
  | c :: _ =>
    if digitCh c then
      let ds := l.takeWhile digitCh
      let rest := (l.dropWhile digitCh).dropWhile wsChar
      if isCiPrefixB "floor".data rest || isCiPrefixB "story".data rest ||
          isCiPrefixB "level".data rest || isCiPrefixB "storey".data rest then
        some ds
      else none
    else none

/-- First match of the floors regex in the text. -/
def floorScan (l : List Char) : Option (List Char) :=
  scanFirst floorAt l

/-- `extractStructuralElements` (app.ts lines 474-489). The four building-type
`if` statements of the source are sequential assignments, each overwriting the
previous one. -/
def extractStructuralElements (text : String) : StructuralElements :=
  let low := (lowerStr text).data
  let floors :=
    match floorScan text.data with
    | some ds => FloorCount.num (digitsVal ds)
    | none => FloorCount.txt "Not specified"
  let ty0 := "Building structure"
  let ty1 := if inclB "residential".data low then "Residential structure" else ty0
  let ty2 := if inclB "commercial".data low then "Commercial structure" else ty1
  let ty3 := if inclB "office".data low then "Office building" else ty2
  let ty4 := if inclB "house".data low then "House" else ty3
  { floors := floors
    type := ty4
    foundation :=
      if inclB "foundation".data low then some "Foundation details specified" else none }

/-- The structured record built by the upload handler from the raw model output
(app.ts lines 249-264); `now` stands for `new Date().toISOString()`. -/
def buildAnalysisResult (analysisText origName now : String) : AnalysisResult :=
  { documentType := extractDocumentType analysisText
    projectInfo :=
      { title := extractProjectTitle analysisText
        fileName := origName
        uploadDate := now
        scale := extractScale analysisText
        sheetNumber := extractSheetNumber analysisText }
    drawings := extractDrawings analysisText
    generalNotes := extractNotes analysisText
    keyFeatures := extractFeatures analysisText
    materialsList := extractMaterials analysisText
    structuralElements := extractStructuralElements analysisText
    extractedText := analysisText }

/-! The Fallback Generator (app.ts lines 492-548) -/

/-- `generateFallbackAnalysis` (app.ts lines 492-532). -/
def generateFallbackAnalysis (fileName now : String) : AnalysisResult :=
  { documentType := "Architectural Drawing"
    projectInfo :=
      { title := "Architectural Project"
        fileName := fileName
        uploadDate := now
        scale := "Various scales"
        sheetNumber := "Not specified" }
    drawings :=
      ["Floor plans and elevations", "Architectural details", "Construction drawings"]
    generalNotes :=
      ["Construction to comply with local building codes",
       "All dimensions to be verified on site",
       "Materials subject to approval"]
    keyFeatures :=
      ["Architectural structure", "Multiple rooms and spaces",
       "Standard construction details", "Building systems integration"]
    materialsList := ["Concrete", "Steel", "Wood", "Glass", "Brick"]
    structuralElements :=
      { floors := FloorCount.txt "Multiple levels"
        type := "Building structure"
        foundation := some "Foundation system" }
    extractedText := "This architectural drawing shows a building design with multiple floors and standard construction details. The drawing includes floor plans, elevations, and construction specifications typical of architectural projects." }

/-- `generateFallbackAnswer` (app.ts lines 534-548). -/
def generateFallbackAnswer (question : String) (analysis : AnalysisResult) : String :=
  let q := lowerStr question
  if containsStr q "floor" || containsStr q "story" || containsStr q "level" then
    "Based on the architectural drawing analysis, this building has " ++
      floorToString analysis.structuralElements.floors ++
      " floors. The structure is designed as a " ++
      analysis.structuralElements.type ++ "."
  else if containsStr q "material" || containsStr q "construction" then
    "The materials specified in this project include: " ++
      String.intercalate ", " analysis.materialsList ++
      ". The construction uses " ++ analysis.structuralElements.type ++ " methods."
  else if containsStr q "room" || containsStr q "space" || containsStr q "layout" then
    "The building layout includes: " ++
      String.intercalate ", " analysis.keyFeatures ++
      ". The design shows " ++ analysis.documentType ++
      " with various architectural spaces."
  else if containsStr q "drawing" || containsStr q "plan" then
    "This document contains: " ++ String.intercalate ", " analysis.drawings ++
      ". The main drawing type is " ++ analysis.documentType ++ "."
  else
    "Based on the architectural drawing analysis, this is a " ++
      analysis.documentType ++ ". Key features include: " ++
      String.intercalate ", " (analysis.keyFeatures.take 3) ++
      ". The structure has " ++ floorToString analysis.structuralElements.floors ++
      " floors and uses materials like " ++
      String.intercalate ", " (analysis.materialsList.take 3) ++ "."

/-! The Analysis Store (app.ts line 74: an in-memory JS Map) -/

/-- The analysis cache, an association list with `Map` semantics. -/
abbrev Cache := List (String × AnalysisResult)

/-- JS `Map.get`: value of the unique entry for the key, if present. -/
def cacheGet (m : Cache) (k : String) : Option AnalysisResult :=
  match m with
  | [] => none
  | (k', v) :: t => if k' = k then some v else cacheGet t k

/-- JS `Map.set`: overwrite the entry in place if the key is present, append
otherwise. -/
def cacheSet (m : Cache) (k : String) (v : AnalysisResult) : Cache :=
  match m with
  | [] => [(k, v)]
  | (k', v') :: t => if k' = k then (k, v) :: t else (k', v') :: cacheSet t k v

/-! The Model Gateway boundary -/

/-- Outcome of the single `ollama.generate` call a request performs: either the
model replies with text, or the call throws. -/
inductive GenOutcome where
  | ok (text : String)
  | failed
deriving Repr, DecidableEq

/-- `checkOllamaStatus` (app.ts lines 77-90), given the model names reported by
`ollama.list` (a transport error is modelled as the empty list, which likewise
yields `false`). -/
def checkOllamaStatus (models : List String) : Bool :=
  models.any (fun m =>
    containsStr (lowerStr m) "llama3.2" ||
    containsStr (lowerStr m) "llama" ||
    containsStr (lowerStr m) "llava")

/-- Vision-model selection of the upload handler (app.ts lines 176-179). -/
def findVisionModel (models : List String) : Option String :=
  models.find? (fun m =>
    containsStr (lowerStr m) "llava" || containsStr (lowerStr m) "vision")

/-- Text-model selection (app.ts lines 205-209 and 316-320). -/
def findTextModel (models : List String) : Option String :=
  models.find? (fun m =>
    containsStr (lowerStr m) "gemma3" ||
    containsStr (lowerStr m) "llama3.2" ||
    containsStr (lowerStr m) "llama")

/-! The upload handler (app.ts lines 152-287), image branch -/

/-- Response of the upload route, restricted to the fields the claims are about. -/
structure UploadResponse where
  status : Nat
  success : Bool
  analysis : Option AnalysisResult
  note : Option String
  aiProvider : Option String
  errorMsg : Option String
deriving Repr, DecidableEq

/-- Note appended to the raw output in the text-model branch (app.ts line 227). -/
def textModelNote : String :=
  "\n\nNote: This is a general analysis. For detailed image analysis, please install LLaVA model with: ollama pull llava"

/-- The fallback note of the upload handler (app.ts line 244). -/
def fallbackUploadNote : String :=
  "Using fallback analysis - please ensure Ollama is running with llava model for image analysis"

/-- The catch branch of the upload handler (app.ts lines 233-246). -/
def uploadFallback (origName now fileName : String) (cache : Cache) :
    UploadResponse × Cache :=
  let fb := generateFallbackAnalysis origName now
  ({ status := 200, success := true, analysis := some fb,
     note := some fallbackUploadNote, aiProvider := none, errorMsg := none },
   cacheSet cache fileName fb)

/-- The structured-result branch of the upload handler (app.ts lines 249-274). -/
def uploadStructured (analysisText origName now fileName : String) (cache : Cache) :
    UploadResponse × Cache :=
  let a := buildAnalysisResult analysisText origName now
  ({ status := 200, success := true, analysis := some a,
     note := none, aiProvider := some "Local Llama 3.2", errorMsg := none },
   cacheSet cache fileName a)

/-- The upload route after a successful image upload (app.ts lines 160-287):
`origName` is the browser file name, `fileName` the unique key assigned by
multer, `gen` the outcome of whichever model call is reached. -/
def uploadHandler (models : List String) (gen : GenOutcome)
    (origName fileName now : String) (cache : Cache) : UploadResponse × Cache :=
  if !checkOllamaStatus models then
    ({ status := 500, success := false, analysis := none, note := none,
       aiProvider := none,
       errorMsg := some "Ollama is not running or no suitable model found" }, cache)
  else
    match findVisionModel models with
    | some _ =>
      match gen with
      | .ok t => uploadStructured t origName now fileName cache
      | .failed => uploadFallback origName now fileName cache
    | none =>
      match findTextModel models with
      | some _ =>
        match gen with
        | .ok t => uploadStructured (t ++ textModelNote) origName now fileName cache
        | .failed => uploadFallback origName now fileName cache
      | none => uploadFallback origName now fileName cache

/-! The chat handler (app.ts lines 290-373) -/

/-- Response of the chat route, restricted to the fields the claims are about. -/
structure ChatResponse where
  status : Nat
  success : Bool
  answer : Option String
  note : Option String
  aiProvider : Option String
  errorMsg : Option String
deriving Repr, DecidableEq

/-- The chat route (app.ts lines 290-373): JS falsiness of the two request
fields is emptiness of the strings. -/
def chatHandler (models : List String) (gen : GenOutcome)
    (question fileName : String) (cache : Cache) : ChatResponse :=
  if question = "" || fileName = "" then
    { status := 400, success := false, answer := none, note := none,
      aiProvider := none, errorMsg := some "Question and fileName are required" }
  else
    match cacheGet cache fileName with
    | none =>
      { status := 404, success := false, answer := none, note := none,
        aiProvider := none, errorMsg := some "Document analysis not found" }
    | some analysis =>
      if !checkOllamaStatus models then
        { status := 200, success := true,
          answer := some (generateFallbackAnswer question analysis),
          note := some "Using fallback response - Ollama not available",
          aiProvider := none, errorMsg := none }
      else
        match findTextModel models with
        | none =>
          { status := 200, success := true,
            answer := some (generateFallbackAnswer question analysis),
            note := some "Using fallback response due to local AI limitations",
            aiProvider := none, errorMsg := none }
        | some _ =>
          match gen with
          | .ok t =>
            { status := 200, success := true, answer := some t, note := none,
              aiProvider := some "Local Llama 3.2", errorMsg := none }
          | .failed =>
            { status := 200, success := true,
              answer := some (generateFallbackAnswer question analysis),
              note := some "Using fallback response due to local AI limitations",
              aiProvider := none, errorMsg := none }

/-! Helper lemmas about the string primitives -/

theorem isPrefixB_append (n r : List Char) : isPrefixB n (n ++ r) = true := by
  induction n with
  | nil => rfl
  | cons c t ih => simp [isPrefixB, ih]

theorem inclB_of_isPrefixB {n h : List Char} (hp : isPrefixB n h = true) :
    inclB n h = true := by
  cases h with
  | nil => exact hp
  | cons c t => simp [inclB, hp]

theorem inclB_cons {n h : List Char} (c : Char) (hi : inclB n h = true) :
    inclB n (c :: h) = true := by
  simp [inclB, hi]

theorem inclB_append_r {n b : List Char} (a : List Char) (hi : inclB n b = true) :
    inclB n (a ++ b) = true := by
  induction a with
  | nil => exact hi
  | cons c t ih => exact inclB_cons c ih

theorem inclB_self_append (n r : List Char) : inclB n (n ++ r) = true :=
  inclB_of_isPrefixB (isPrefixB_append n r)

theorem strData_append (s t : String) : (s ++ t).data = s.data ++ t.data := by
  cases s; cases t; rfl

theorem nonBlank_of_trimB_ne_nil {l : List Char} (h : trimB l ≠ []) :
    (trimB l).any (fun c => !wsChar c) = true := by
  unfold trimB at *
  set y := (l.dropWhile wsChar).reverse.dropWhile wsChar with hy
  have hyne : y ≠ [] := by
    intro hc
    exact h (by rw [hc]; rfl)
  have hhead : wsChar (y.head hyne) = false := List.head_dropWhile_not wsChar _ hyne
  refine List.any_eq_true.mpr ⟨y.head hyne, ?_, ?_⟩
  · exact List.mem_reverse.mpr (List.head_mem hyne)
  · simp [hhead]

theorem dropWhile_eq_self_of_all {p : Char → Bool} {l : List Char}
    (h : ∀ c ∈ l, p c = false) : l.dropWhile p = l := by
  cases l with
  | nil => rfl
  | cons c t => simp [List.dropWhile_cons, h c (List.mem_cons_self c t)]

theorem trimB_eq_self_of_all {l : List Char} (h : ∀ c ∈ l, wsChar c = false) :
    trimB l = l := by
  unfold trimB
  rw [dropWhile_eq_self_of_all h]
  rw [dropWhile_eq_self_of_all (fun c hc => h c (List.mem_reverse.mp hc))]
  exact List.reverse_reverse l

theorem scanFirst_some {f : List Char → Option (List Char)} {l r : List Char}
    (h : scanFirst f l = some r) : ∃ t, f t = some r := by
  induction l with
  | nil => exact ⟨[], h⟩
  | cons c t ih =>
    unfold scanFirst at h
    cases hf : f (c :: t) with
    | some v =>
      rw [hf] at h
      exact ⟨c :: t, hf.trans h⟩
    | none =>
      rw [hf] at h
      exact ih h

/-! Claim C7: the Analysis Store -/

theorem cacheGet_cacheSet_self (m : Cache) (k : String) (v : AnalysisResult) :
    cacheGet (cacheSet m k v) k = some v := by
  induction m with
  | nil => simp [cacheSet, cacheGet]
  | cons p t ih =>
    obtain ⟨k₀, v₀⟩ := p
    by_cases h : k₀ = k
    · simp [cacheSet, h, cacheGet]
    · simp [cacheSet, h, cacheGet, ih]

theorem cacheGet_of_forall_ne (m : Cache) (k : String) (hk : ∀ p ∈ m, p.1 ≠ k) :
    cacheGet m k = none := by
  induction m with
  | nil => rfl
  | cons p t ih =>
    obtain ⟨k₀, v₀⟩ := p
    have h0 : k₀ ≠ k := hk (k₀, v₀) (List.mem_cons_self _ _)
    simp only [cacheGet, if_neg h0]
    exact ih (fun q hq => hk q (List.mem_cons_of_mem _ hq))

/-- C7: after `put(k, r)` the store returns a value deeply equal to `r` for `k`,
and `get` on a key that was never inserted (no entry carries it) returns none. -/
theorem cache_put_get (m : Cache) (k : String) (r : AnalysisResult)
    (m' : Cache) (k' : String) (hk' : ∀ p ∈ m', p.1 ≠ k') :
    cacheGet (cacheSet m k r) k = some r ∧ cacheGet m' k' = none :=
  ⟨cacheGet_cacheSet_self m k r, cacheGet_of_forall_ne m' k' hk'⟩

/-- C7 witness: a concrete put followed by get, and a get on an absent key. -/
theorem cache_put_get_witness :
    cacheGet (cacheSet [] "doc-1" (generateFallbackAnalysis "plan.png" "2025-01-01"))
        "doc-1" = some (generateFallbackAnalysis "plan.png" "2025-01-01") ∧
    cacheGet [("doc-1", generateFallbackAnalysis "plan.png" "2025-01-01")] "other"
        = none :=
  cache_put_get [] "doc-1" (generateFallbackAnalysis "plan.png" "2025-01-01")
    [("doc-1", generateFallbackAnalysis "plan.png" "2025-01-01")] "other"
    (by intro p hp; simp only [List.mem_singleton] at hp; subst hp; decide)

/-! Claim C8: extractMaterials is deterministic and deduplicating -/

/-- C8: `extractMaterials` is deterministic, and each keyword of the fixed
vocabulary occurs (capitalized) at most once in the output, however often it
occurs in the input text. -/
theorem extractMaterials_deterministic_dedup (text : String) (m : String)
    (_hm : m ∈ commonMaterials) :
    extractMaterials text = extractMaterials text ∧
    (extractMaterials text).count (capFirst m) ≤ 1 := by
  refine ⟨rfl, ?_⟩
  unfold extractMaterials
  set found :=
    (commonMaterials.filter (fun s => inclB s.data (lowerStr text).data)).map capFirst
    with hfound
  by_cases hl : found.length > 0
  · have hsub : List.Sublist found (commonMaterials.map capFirst) :=
      (List.filter_sublist _).map capFirst
    have hnd : (commonMaterials.map capFirst).Nodup := by decide
    have : found.Nodup := hnd.sublist hsub
    simp only [hl, if_pos]
    exact List.nodup_iff_count_le_one.mp this (capFirst m)
  · simp only [hl, if_neg, if_false]
    calc List.count (capFirst m) ["Building materials specified"]
        ≤ (["Building materials specified"] : List String).length :=
          List.count_le_length _ _
      _ ≤ 1 := by decide

/-- C8 witness: a text repeating a material keyword. -/
theorem extractMaterials_deterministic_dedup_witness :
    "steel" ∈ commonMaterials ∧
    (extractMaterials "steel Steel STEEL concrete").count (capFirst "steel") ≤ 1 :=
  ⟨by decide,
   (extractMaterials_deterministic_dedup "steel Steel STEEL concrete" "steel"
     (by decide)).2⟩

/-! Claim C9: the canned floors answer mentions the record fields -/

/-- C9: for every record, the fallback answer to the question How many floors
contains the string form of the floors field and contains the building type. -/
theorem fallbackAnswer_floors_mentions (r : AnalysisResult) :
    containsStr (generateFallbackAnswer "How many floors?" r)
      (floorToString r.structuralElements.floors) = true ∧
    containsStr (generateFallbackAnswer "How many floors?" r)
      r.structuralElements.type = true := by
  have hq : generateFallbackAnswer "How many floors?" r =
      "Based on the architectural drawing analysis, this building has " ++
        floorToString r.structuralElements.floors ++
        " floors. The structure is designed as a " ++
        r.structuralElements.type ++ "." := rfl
  rw [hq]
  constructor
  · simp only [containsStr, strData_append, List.append_assoc]
    exact inclB_append_r _ (inclB_self_append _ _)
  · simp only [containsStr, strData_append, List.append_assoc]
    exact inclB_append_r _ (inclB_append_r _ (inclB_append_r _ (inclB_self_append _ _)))

/-! Claim C1: non-emptiness of extractor output -/

theorem labelValue_nonBlank (line : List Char) : nonBlank (labelValue line) = true := by
  unfold labelValue
  cases h : (splitCh ':' line)[1]? with
  | none => decide
  | some v =>
    by_cases ht : trimB v = []
    · simp only [ht, if_pos]
      decide
    · simp only [ht, if_neg, if_false]
      exact nonBlank_of_trimB_ne_nil ht

theorem docTypeLoop_nonBlank {ls : List (List Char)} {v : String}
    (h : docTypeLoop ls = some v) : nonBlank v = true := by
  induction ls with
  | nil => exact absurd h (by simp [docTypeLoop])
  | cons line rest ih =>
    unfold docTypeLoop at h
    by_cases hc :
        (inclB "document type".data line || inclB "type of drawing".data line) = true
    · rw [if_pos hc] at h
      injection h with h2
      rw [← h2]
      exact labelValue_nonBlank line
    · rw [if_neg hc] at h
      exact ih h

theorem extractDocumentType_nonBlank (text : String) :
    nonBlank (extractDocumentType text) = true := by
  rcases h : docTypeLoop (splitCh '\n' (lowerStr text).data) with _ | v
  · have he : extractDocumentType text =
        (if containsStr (lowerStr text) "floor plan" then "Floor Plan"
         else if containsStr (lowerStr text) "elevation" then "Building Elevation"
         else if containsStr (lowerStr text) "section" then "Building Section"
         else "Architectural Drawing") := by
      unfold extractDocumentType
      rw [h]
    rw [he]
    split
    · decide
    · split
      · decide
      · split
        · decide
        · decide
  · have he : extractDocumentType text = v := by
      unfold extractDocumentType
      rw [h]
    rw [he]
    exact docTypeLoop_nonBlank h

theorem titleLoop_nonBlank {ls : List (List Char)} {v : String}
    (h : titleLoop ls = some v) : nonBlank v = true := by
  induction ls with
  | nil => exact absurd h (by simp [titleLoop])
  | cons line rest ih =>
    unfold titleLoop at h
    by_cases hc :
        (inclB "project".data (line.map Char.toLower) ||
          inclB "title".data (line.map Char.toLower)) = true
    · rw [if_pos hc] at h
      have hv :
          (match (splitCh ':' line)[1]? with
            | none => "Architectural Project"
            | some w => if trimB w = [] then "Architectural Project"
                else (⟨trimB w⟩ : String)) = v := by
        injection h
      rw [← hv]
      cases hg : (splitCh ':' line)[1]? with
      | none => decide
      | some w =>
        by_cases ht : trimB w = []
        · simp only [ht, if_pos]
          decide
        · simp only [ht, if_neg, if_false]
          exact nonBlank_of_trimB_ne_nil ht
    · rw [if_neg hc] at h
      exact ih h

theorem extractProjectTitle_nonBlank (text : String) :
    nonBlank (extractProjectTitle text) = true := by
  rcases h : titleLoop (splitCh '\n' text.data) with _ | v
  · have he : extractProjectTitle text = "Architectural Project" := by
      unfold extractProjectTitle
      rw [h]
    rw [he]
    decide
  · have he : extractProjectTitle text = v := by
      unfold extractProjectTitle
      rw [h]
    rw [he]
    exact titleLoop_nonBlank h

theorem sheetAt_spec {l cap : List Char} (h : sheetAt l = some cap) :
    cap ≠ [] ∧ ∀ c ∈ cap, sheetCls c = true := by
  unfold sheetAt at h
  by_cases hp : isCiPrefixB "sheet".data l = true
  · rw [if_pos hp] at h
    by_cases hc :
        ((l.drop 5).dropWhile gapCls).takeWhile sheetCls = []
    · rw [if_pos hc] at h
      exact absurd h (by simp)
    · rw [if_neg hc] at h
      have hcap : ((l.drop 5).dropWhile gapCls).takeWhile sheetCls = cap := by
        injection h
      refine ⟨hcap ▸ hc, ?_⟩
      intro c hcm
      exact List.mem_takeWhile_imp (hcap ▸ hcm)
  · rw [if_neg hp] at h
    exact absurd h (by simp)

theorem sheetCls_not_ws {c : Char} (h : sheetCls c = true) : wsChar c = false := by
  unfold sheetCls digitCh at h
  unfold wsChar
  simp only [Bool.or_eq_true, Bool.and_eq_true, decide_eq_true_eq, beq_iff_eq] at h
  simp only [Bool.or_eq_false_iff, beq_eq_false_iff_ne, ne_eq]
  rcases h with ((((⟨h1, h2⟩ | ⟨h1, h2⟩) | ⟨h1, h2⟩) | rfl) | rfl)
  · omega
  · omega
  · omega
  · decide
  · decide

theorem extractSheetNumber_nonBlank (text : String) :
    nonBlank (extractSheetNumber text) = true := by
  rcases h : sheetScan text.data with _ | cap
  · have he : extractSheetNumber text = "Not specified" := by
      unfold extractSheetNumber
      rw [h]
    rw [he]
    decide
  · have he : extractSheetNumber text = ⟨trimB cap⟩ := by
      unfold extractSheetNumber
      rw [h]
    rw [he]
    obtain ⟨t, ht⟩ := scanFirst_some h
    obtain ⟨hne, hall⟩ := sheetAt_spec ht
    have hnw : ∀ c ∈ cap, wsChar c = false := fun c hc => sheetCls_not_ws (hall c hc)
    show (trimB cap).any (fun c => !wsChar c) = true
    rw [trimB_eq_self_of_all hnw]
    obtain ⟨c, hcm⟩ := List.exists_mem_of_ne_nil cap hne
    exact List.any_eq_true.mpr ⟨c, hcm, by simp [hnw c hcm]⟩

theorem length_pos_of_defaulted (res : List String) (d : String) :
    0 < (if res.length > 0 then res else [d]).length := by
  split
  · omega
  · simp

theorem extractDrawings_length (text : String) : 0 < (extractDrawings text).length :=
  length_pos_of_defaulted _ _

theorem extractNotes_length (text : String) : 0 < (extractNotes text).length :=
  length_pos_of_defaulted _ _

theorem extractFeatures_length (text : String) : 0 < (extractFeatures text).length :=
  length_pos_of_defaulted _ _

theorem extractMaterials_length (text : String) : 0 < (extractMaterials text).length :=
  length_pos_of_defaulted _ _

/-- C1 counterexample: on the text `scale unknown` the scale regex captures a
single whitespace character (the capture class contains whitespace, so the
greedy `[:\s]*` run backtracks by one), which trims to the empty string: the
produced record has a blank `projectInfo.scale`. -/
theorem extractor_fields_nonempty_cex :
    (buildAnalysisResult "scale unknown" "plan.png" "2025-06-01").projectInfo.scale
      = "" ∧ nonBlank "" = false := by
  constructor
  · decide
  · decide

/-- C1 amended: every list-valued field of a produced record is non-empty and
`documentType`, `projectInfo.title` and `projectInfo.sheetNumber` are non-blank;
`projectInfo.scale` is excluded, as it can be blank (see the counterexample). -/
theorem extractor_fields_nonempty (text origName now : String) :
    0 < (buildAnalysisResult text origName now).drawings.length ∧
    0 < (buildAnalysisResult text origName now).generalNotes.length ∧
    0 < (buildAnalysisResult text origName now).keyFeatures.length ∧
    0 < (buildAnalysisResult text origName now).materialsList.length ∧
    nonBlank (buildAnalysisResult text origName now).documentType = true ∧
    nonBlank (buildAnalysisResult text origName now).projectInfo.title = true ∧
    nonBlank (buildAnalysisResult text origName now).projectInfo.sheetNumber = true :=
  ⟨extractDrawings_length text, extractNotes_length text, extractFeatures_length text,
   extractMaterials_length text, extractDocumentType_nonBlank text,
   extractProjectTitle_nonBlank text, extractSheetNumber_nonBlank text⟩

/-! Claim C3: the spec example for extractStructuralElements -/

/-- C3 counterexample: on the exact example text the floors regex does not
match at all (the hyphen of `3-story` is neither whitespace nor the start of a
keyword), so `floors` is the string `Not specified`, not the number 3. -/
theorem structural_example_cex :
    (extractStructuralElements "This residential 3-story building...").floors
      ≠ FloorCount.num 3 := by decide

/-- C3 amended: on the example text the extractor returns floors equal to the
string `Not specified` (the `3-story` hyphen prevents a regex match), type
`Residential structure`, and no foundation. -/
theorem structural_example_amended :
    extractStructuralElements "This residential 3-story building..." =
      { floors := FloorCount.txt "Not specified", type := "Residential structure",
        foundation := none } := by decide

/-! Claim C4: building-type keyword priority -/

/-- C4 counterexample: a text containing both `residential` and `house` is
classified `House`, not `Residential structure`: the four keyword checks are
sequential overwrites, so the last match wins. -/
theorem type_priority_cex :
    (extractStructuralElements "residential house").type = "House" ∧
    (extractStructuralElements "residential house").type ≠ "Residential structure" := by
  constructor
  · decide
  · decide

/-- C4 amended: the keywords are checked in the fixed order residential,
commercial, office, house, but each check overwrites the previous result, so
for a text containing several keywords the reported type is the one of the
LATEST keyword in that order. -/
theorem type_priority_amended (text : String) :
    (inclB "house".data (lowerStr text).data = true →
      (extractStructuralElements text).type = "House") ∧
    (inclB "house".data (lowerStr text).data = false →
      inclB "office".data (lowerStr text).data = true →
      (extractStructuralElements text).type = "Office building") ∧
    (inclB "house".data (lowerStr text).data = false →
      inclB "office".data (lowerStr text).data = false →
      inclB "commercial".data (lowerStr text).data = true →
      (extractStructuralElements text).type = "Commercial structure") ∧
    (inclB "house".data (lowerStr text).data = false →
      inclB "office".data (lowerStr text).data = false →
      inclB "commercial".data (lowerStr text).data = false →
      inclB "residential".data (lowerStr text).data = true →
      (extractStructuralElements text).type = "Residential structure") := by
  refine ⟨?_, ?_, ?_, ?_⟩ <;> intros <;> simp [extractStructuralElements, *]

/-- C4 witness: the text `residential house` contains two keywords and is
classified by the later one. -/
theorem type_priority_amended_witness :
    inclB "house".data (lowerStr "residential house").data = true ∧
    (extractStructuralElements "residential house").type = "House" :=
  ⟨by decide, (type_priority_amended "residential house").1 (by decide)⟩

/-! Claim C6: floor plan classification -/

theorem docTypeLoop_none {ls : List (List Char)}
    (h : ∀ l ∈ ls,
      (inclB "document type".data l || inclB "type of drawing".data l) = false) :
    docTypeLoop ls = none := by
  induction ls with
  | nil => rfl
  | cons line rest ih =>
    unfold docTypeLoop
    rw [if_neg (by simp [h line (List.mem_cons_self _ _)])]
    exact ih fun l hl => h l (List.mem_cons_of_mem _ hl)

/-- C6 counterexample: a text containing `floor plan` and no line with a
`document type:` label (with colon) can still hit the label branch, because the
label test does not require the colon: the line `document type unknown`
triggers it and the missing colon value falls back to `Architectural Drawing`. -/
theorem floorplan_doctype_cex :
    containsStr (lowerStr "document type unknown\nfloor plan") "floor plan" = true ∧
    (∀ line ∈ splitCh '\n' (lowerStr "document type unknown\nfloor plan").data,
      inclB "document type:".data line = false) ∧
    extractDocumentType "document type unknown\nfloor plan" ≠ "Floor Plan" := by
  refine ⟨by decide, by decide, by decide⟩

/-- C6 amended: if no line of the lower-cased text contains `document type` or
`type of drawing` (colon or not) and the text contains `floor plan`
(case-insensitively), then the document type is `Floor Plan`. -/
theorem floorplan_doctype_amended (text : String)
    (hlab : ∀ line ∈ splitCh '\n' (lowerStr text).data,
      (inclB "document type".data line || inclB "type of drawing".data line) = false)
    (hfp : containsStr (lowerStr text) "floor plan" = true) :
    extractDocumentType text = "Floor Plan" := by
  unfold extractDocumentType
  rw [docTypeLoop_none hlab]
  show (if containsStr (lowerStr text) "floor plan" then "Floor Plan"
    else if containsStr (lowerStr text) "elevation" then "Building Elevation"
    else if containsStr (lowerStr text) "section" then "Building Section"
    else "Architectural Drawing") = "Floor Plan"
  rw [if_pos hfp]

/-- C6 witness: a label-free text mentioning a floor plan. -/
theorem floorplan_doctype_amended_witness :
    extractDocumentType "a fine floor plan" = "Floor Plan" :=
  floorplan_doctype_amended "a fine floor plan" (by decide) (by decide)

/-! Claim C10: labelled document types are returned lower-cased -/

theorem charOfNat_toNat {m : Nat} (h : m < 55296) : (Char.ofNat m).toNat = m := by
  rw [Char.ofNat, dif_pos (Or.inl h)]
  rfl

theorem toLower_toLower (c : Char) : c.toLower.toLower = c.toLower := by
  by_cases h : 65 ≤ c.toNat ∧ c.toNat ≤ 90
  · have h1 : c.toLower = Char.ofNat (c.toNat + 32) := by
      unfold Char.toLower
      rw [if_pos h]
    have h2 : (Char.ofNat (c.toNat + 32)).toNat = c.toNat + 32 :=
      charOfNat_toNat (by omega)
    rw [h1]
    unfold Char.toLower
    rw [if_neg (by omega)]
  · have h1 : c.toLower = c := by
      unfold Char.toLower
      rw [if_neg h]
    rw [h1, h1]

theorem mem_splitCh {sep : Char} :
    ∀ {l part : List Char}, part ∈ splitCh sep l → ∀ {c : Char}, c ∈ part → c ∈ l := by
  intro l
  induction l with
  | nil =>
    intro part hp c hc
    simp only [splitCh, List.mem_singleton] at hp
    subst hp
    exact absurd hc (List.not_mem_nil c)
  | cons a t ih =>
    intro part hp c hc
    unfold splitCh at hp
    by_cases ha : (a == sep) = true
    · rw [if_pos ha] at hp
      rcases List.mem_cons.mp hp with rfl | hp'
      · exact absurd hc (List.not_mem_nil c)
      · exact List.mem_cons_of_mem a (ih hp' hc)
    · rw [if_neg ha] at hp
      cases hs : splitCh sep t with
      | nil =>
        rw [hs] at hp
        simp only [List.mem_singleton] at hp
        subst hp
        simp only [List.mem_singleton] at hc
        subst hc
        exact List.mem_cons_self c t
      | cons p ps =>
        rw [hs] at hp
        rcases List.mem_cons.mp hp with rfl | hp'
        · rcases List.mem_cons.mp hc with rfl | hc'
          · exact List.mem_cons_self c t
          · exact List.mem_cons_of_mem a (ih (hs ▸ List.mem_cons_self p ps) hc')
        · exact List.mem_cons_of_mem a (ih (hs ▸ List.mem_cons_of_mem p hp') hc)

theorem trimB_subset {l : List Char} {c : Char} (h : c ∈ trimB l) : c ∈ l := by
  unfold trimB at h
  rw [List.mem_reverse] at h
  have h1 := (List.dropWhile_sublist _).subset h
  rw [List.mem_reverse] at h1
  exact (List.dropWhile_sublist _).subset h1

theorem mem_lowerStr_fixed {text : String} {c : Char}
    (h : c ∈ (lowerStr text).data) : c.toLower = c := by
  unfold lowerStr at h
  simp only [List.mem_map] at h
  obtain ⟨d, _, rfl⟩ := h
  exact toLower_toLower d

theorem lowerStr_eq_self_of_fixed {s : String} (h : ∀ c ∈ s.data, c.toLower = c) :
    lowerStr s = s := by
  have hm : s.data.map Char.toLower = s.data := by
    rw [List.map_congr_left h]
    exact List.map_id s.data
  unfold lowerStr
  rw [hm]

theorem docTypeLoop_eq_find (ls : List (List Char)) :
    docTypeLoop ls = (ls.find? (fun l =>
      inclB "document type".data l || inclB "type of drawing".data l)).map labelValue := by
  induction ls with
  | nil => rfl
  | cons line rest ih =>
    unfold docTypeLoop
    by_cases hc :
        (inclB "document type".data line || inclB "type of drawing".data line) = true
    · rw [if_pos hc,
        List.find?_cons_of_pos
          (p := fun l => inclB "document type".data l || inclB "type of drawing".data l)
          _ hc]
      rfl
    · rw [if_neg hc,
        List.find?_cons_of_neg
          (p := fun l => inclB "document type".data l || inclB "type of drawing".data l)
          _ (by simpa using hc), ih]

/-- C10: when the first labelled line of the lower-cased text has a non-blank
value after its first colon, that trimmed value is returned as the document
type, and it is entirely lower-cased (lower-casing it again changes nothing),
since the function lower-cases the whole text before splitting into lines. -/
theorem labeled_doctype_lowercased (text : String) (line v : List Char)
    (hfind : (splitCh '\n' (lowerStr text).data).find?
      (fun l => inclB "document type".data l || inclB "type of drawing".data l)
      = some line)
    (hval : (splitCh ':' line)[1]? = some v)
    (htrim : trimB v ≠ []) :
    extractDocumentType text = ⟨trimB v⟩ ∧
    lowerStr ⟨trimB v⟩ = (⟨trimB v⟩ : String) := by
  have hlv : labelValue line = ⟨trimB v⟩ := by
    unfold labelValue
    rw [hval]
    show (if trimB v = [] then "Architectural Drawing" else (⟨trimB v⟩ : String))
      = ⟨trimB v⟩
    rw [if_neg htrim]
  constructor
  · unfold extractDocumentType
    rw [docTypeLoop_eq_find, hfind]
    exact hlv
  · refine lowerStr_eq_self_of_fixed ?_
    intro c hc
    have hcv : c ∈ v := trimB_subset hc
    have hcl : c ∈ line := mem_splitCh (List.getElem?_mem hval) hcv
    have hct : c ∈ (lowerStr text).data :=
      mem_splitCh (List.mem_of_find?_eq_some hfind) hcl
    exact mem_lowerStr_fixed hct

/-- C10 witness: an upper-case labelled document type comes back lower-cased. -/
theorem labeled_doctype_lowercased_witness :
    extractDocumentType "Document Type: Floor PLAN" = "floor plan" ∧
    lowerStr "floor plan" = "floor plan" := by
  have h := labeled_doctype_lowercased "Document Type: Floor PLAN"
    "document type: floor plan".data " floor plan".data (by decide) (by decide)
    (by decide)
  have he : (⟨trimB " floor plan".data⟩ : String) = "floor plan" := by decide
  rw [he] at h
  exact h

/-! Claim C2: upload with no usable models -/

/-- C2 counterexample: when the gateway lists no usable models, the upload
handler answers with a 500 error and stores nothing - the fallback generator is
not reached. -/
theorem upload_no_models_cex :
    (uploadHandler [] .failed "plan.png" "doc-1" "2025-06-01" []).1.success = false ∧
    (uploadHandler [] .failed "plan.png" "doc-1" "2025-06-01" []).1.status = 500 ∧
    cacheGet (uploadHandler [] .failed "plan.png" "doc-1" "2025-06-01" []).2 "doc-1"
      = none := by
  refine ⟨by decide, by decide, by decide⟩

theorem uploadHandler_of_unusable (models : List String) (gen : GenOutcome)
    (origName fileName now : String) (cache : Cache)
    (h : checkOllamaStatus models = false) :
    uploadHandler models gen origName fileName now cache =
      ({ status := 500, success := false, analysis := none, note := none,
         aiProvider := none,
         errorMsg := some "Ollama is not running or no suitable model found" },
       cache) := by
  unfold uploadHandler
  rw [h]
  rfl

theorem uploadHandler_failed_of_usable (models : List String)
    (origName fileName now : String) (cache : Cache)
    (h : checkOllamaStatus models = true) :
    uploadHandler models .failed origName fileName now cache =
      uploadFallback origName now fileName cache := by
  unfold uploadHandler
  rw [h]
  show (match findVisionModel models with
    | some _ => uploadFallback origName now fileName cache
    | none =>
      match findTextModel models with
      | some _ => uploadFallback origName now fileName cache
      | none => uploadFallback origName now fileName cache)
    = uploadFallback origName now fileName cache
  cases findVisionModel models with
  | some m => rfl
  | none =>
    cases findTextModel models with
    | some m => rfl
    | none => rfl

/-- C2 amended: when the gateway lists no usable model the upload operation
returns a 500 error response and stores nothing; the record equal to
`fallbackAnalysis(originalFileName)` is stored and returned with the fallback
note only when the gateway is usable and the model call then fails. -/
theorem upload_fallback_amended (models : List String) (gen : GenOutcome)
    (origName fileName now : String) (cache : Cache) :
    (checkOllamaStatus models = false →
      (uploadHandler models gen origName fileName now cache).1.status = 500 ∧
      (uploadHandler models gen origName fileName now cache).1.success = false ∧
      (uploadHandler models gen origName fileName now cache).2 = cache) ∧
    (checkOllamaStatus models = true → gen = .failed →
      (uploadHandler models gen origName fileName now cache).1.success = true ∧
      (uploadHandler models gen origName fileName now cache).1.note
        = some fallbackUploadNote ∧
      (uploadHandler models gen origName fileName now cache).1.analysis
        = some (generateFallbackAnalysis origName now) ∧
      cacheGet (uploadHandler models gen origName fileName now cache).2 fileName
        = some (generateFallbackAnalysis origName now)) := by
  constructor
  · intro h
    rw [uploadHandler_of_unusable models gen origName fileName now cache h]
    exact ⟨rfl, rfl, rfl⟩
  · intro h hg
    subst hg
    rw [uploadHandler_failed_of_usable models origName fileName now cache h]
    exact ⟨rfl, rfl, rfl, cacheGet_cacheSet_self cache fileName _⟩

set_option maxRecDepth 4000 in
/-- C2 witness: both halves at concrete inputs - an empty model list yields the
500 error, a usable model list with a failing call yields the stored fallback. -/
theorem upload_fallback_amended_witness :
    (uploadHandler [] .failed "plan.png" "doc-1" "2025-06-01" []).1.status = 500 ∧
    (uploadHandler ["llama3.2"] .failed "plan.png" "doc-1" "2025-06-01" []).1.note
      = some fallbackUploadNote ∧
    cacheGet (uploadHandler ["llama3.2"] .failed "plan.png" "doc-1" "2025-06-01" []).2
      "doc-1" = some (generateFallbackAnalysis "plan.png" "2025-06-01") :=
  ⟨((upload_fallback_amended [] .failed "plan.png" "doc-1" "2025-06-01" []).1
      (by decide)).1,
   ((upload_fallback_amended ["llama3.2"] .failed "plan.png" "doc-1" "2025-06-01" []).2
      (by decide) rfl).2.1,
   ((upload_fallback_amended ["llama3.2"] .failed "plan.png" "doc-1" "2025-06-01" []).2
      (by decide) rfl).2.2.2⟩

/-! Claim C5: chat falls back on any gateway failure -/

/-- C5: for a non-empty question on a cached document key, any gateway failure
(unusable gateway, no suitable text model, or a failing generate call) makes the
chat operation answer successfully with `fallbackAnswer(question, record)`,
never with an error. -/
theorem chat_gateway_failure_fallback (models : List String) (gen : GenOutcome)
    (question fileName : String) (cache : Cache) (analysis : AnalysisResult)
    (hq : question ≠ "") (hf : fileName ≠ "")
    (hc : cacheGet cache fileName = some analysis)
    (hfail : checkOllamaStatus models = false ∨ findTextModel models = none ∨
      gen = .failed) :
    (chatHandler models gen question fileName cache).success = true ∧
    (chatHandler models gen question fileName cache).answer
      = some (generateFallbackAnswer question analysis) ∧
    (chatHandler models gen question fileName cache).errorMsg = none := by
  rcases hfail with h | h | h
  · simp [chatHandler, hq, hf, hc, h]
  · cases hs : checkOllamaStatus models
    · simp [chatHandler, hq, hf, hc, hs]
    · simp [chatHandler, hq, hf, hc, hs, h]
  · subst h
    cases hs : checkOllamaStatus models
    · simp [chatHandler, hq, hf, hc, hs]
    · cases ht : findTextModel models
      · simp [chatHandler, hq, hf, hc, hs, ht]
      · simp [chatHandler, hq, hf, hc, hs, ht]

set_option maxRecDepth 8000 in
/-- C5 witness: an unusable gateway on a cached record yields the fallback
answer as a success. -/
theorem chat_gateway_failure_fallback_witness :
    (chatHandler [] .failed "How many floors?" "doc-1"
        [("doc-1", generateFallbackAnalysis "plan.png" "t0")]).success = true ∧
    (chatHandler [] .failed "How many floors?" "doc-1"
        [("doc-1", generateFallbackAnalysis "plan.png" "t0")]).answer
      = some (generateFallbackAnswer "How many floors?"
          (generateFallbackAnalysis "plan.png" "t0")) :=
  ⟨(chat_gateway_failure_fallback [] .failed "How many floors?" "doc-1"
      [("doc-1", generateFallbackAnalysis "plan.png" "t0")]
      (generateFallbackAnalysis "plan.png" "t0")
      (by decide) (by decide) (by decide) (Or.inl (by decide))).1,
   (chat_gateway_failure_fallback [] .failed "How many floors?" "doc-1"
      [("doc-1", generateFallbackAnalysis "plan.png" "t0")]
      (generateFallbackAnalysis "plan.png" "t0")
      (by decide) (by decide) (by decide) (Or.inl (by decide))).2.1⟩

end ADA
